import Mathlib

/-!
Verification of the policy-based-routing and QoS-measurement programs.

This file shallowly embeds the two C++ source files of the repository:

* `pbr-simulation-complete.cc` — the `PbrRouting` class, whose `RouteOutput`
  classifies each outbound packet by the DSCP marking of its IPv4 header
  (0x2e = expedited forwarding → "video" path, 0x00 = best effort → "data"
  path, anything else → delegate to the node's underlying routing protocol),
  and whose `RouteInput` unconditionally delegates.

* `qos-implementation.cc` — the `CheckMetrics` function, which buckets
  FlowMonitor records by source port (9 = VoIP, 10 = FTP), sums the
  transmitted/received/delay/jitter counters per class, and, for each class
  with a positive received total, derives loss percentage, average delay,
  average jitter (VoIP only) and throughput (FTP only).

Addresses, packets, devices and socket error codes are modelled as abstract
natural numbers; the C++ `double` arithmetic is modelled over `ℚ` (the
claims checked here concern branch structure and exact formulas, not IEEE
rounding).  The out-parameter `sockerr` is modelled by explicit in/out
state passing, and the underlying (fallback) routing protocol reached via
`m_ipv4->GetRoutingProtocol()` is a function-valued field of the `Ipv4`
model, so that theorems quantify over every possible fallback behaviour.
-/

/-- An IPv4 address, modelled as an abstract natural number. -/
abbrev Ipv4Address := Nat

/-- A network device handle, modelled as an abstract natural number. -/
abbrev NetDevice := Nat

/-- A packet, modelled as an abstract natural number (the routing code never
inspects the payload). -/
abbrev Packet := Nat

/-- A socket error code (`Socket::SocketErrno`), modelled as a natural
number. -/
abbrev SocketErrno := Nat

/-- The part of an `Ipv4Header` that `PbrRouting::RouteOutput` reads: the
DSCP field (`header.GetDscp()`) and the destination address
(`header.GetDestination()`). -/
structure Ipv4Header where
  dscp : Nat
  destination : Ipv4Address
deriving DecidableEq

/-- An `Ipv4Route` as populated by `PbrRouting::RouteOutput`: destination,
source, gateway and output device. -/
structure Ipv4Route where
  destination : Ipv4Address
  source : Ipv4Address
  gateway : Ipv4Address
  outputDevice : NetDevice
deriving DecidableEq

/-- The slice of the `Ipv4` object that `PbrRouting` uses: address and
device lookup by interface index, and the underlying routing protocol
(`GetRoutingProtocol()`), modelled as two functions — one for `RouteOutput`
(returning a possibly-null route and the final value of the `sockerr`
out-parameter) and one for `RouteInput` (returning a boolean, with the four
callbacks passed as abstract handles). -/
structure Ipv4Model where
  localAddress : Nat → Ipv4Address
  netDevice : Nat → NetDevice
  fallbackRouteOutput : Packet → Ipv4Header → NetDevice → SocketErrno →
    Option Ipv4Route × SocketErrno
  fallbackRouteInput : Packet → Ipv4Header → NetDevice → Nat → Nat → Nat → Nat → Bool

/-- The `PbrRouting` object: the two configured next hops and interface
indices (constructor arguments) plus the `Ipv4` object installed by
`SetIpv4`. -/
structure PbrRouting where
  videoNextHop : Ipv4Address
  dataNextHop : Ipv4Address
  videoIfIndex : Nat
  dataIfIndex : Nat
  ipv4 : Ipv4Model

/-- Constant `DSCP_VIDEO_EF = 0x2e`, the expedited-forwarding marking
(VoIP/video). -/
def DSCP_VIDEO_EF : Nat := 0x2e

/-- Constant `DSCP_DATA_BE = 0x00`, the best-effort marking (data/FTP). -/
def DSCP_DATA_BE : Nat := 0x00

/-- Embedding of `PbrRouting::RouteOutput`: classify by the header's DSCP
field.  On `0x2e` build a route over the video interface, on `0x00` over
the data interface; otherwise delegate to the underlying routing protocol,
returning its result (route and `sockerr`) unchanged.  The policy branches
never write `sockerr`, so they pair their route with the incoming value. -/
def PbrRouting.RouteOutput (pbr : PbrRouting) (p : Packet) (header : Ipv4Header)
    (oif : NetDevice) (sockerr : SocketErrno) : Option Ipv4Route × SocketErrno :=
  let dscp := header.dscp
  if dscp = DSCP_VIDEO_EF then
    (some { destination := header.destination,
            source := pbr.ipv4.localAddress pbr.videoIfIndex,
            gateway := pbr.videoNextHop,
            outputDevice := pbr.ipv4.netDevice pbr.videoIfIndex }, sockerr)
  else if dscp = DSCP_DATA_BE then
    (some { destination := header.destination,
            source := pbr.ipv4.localAddress pbr.dataIfIndex,
            gateway := pbr.dataNextHop,
            outputDevice := pbr.ipv4.netDevice pbr.dataIfIndex }, sockerr)
  else
    pbr.ipv4.fallbackRouteOutput p header oif sockerr

/-- Embedding of `PbrRouting::RouteInput`: defer the input-routing decision
to the underlying routing protocol with all seven arguments unchanged. -/
def PbrRouting.RouteInput (pbr : PbrRouting) (p : Packet) (header : Ipv4Header)
    (idev : NetDevice) (ucb mcb lcb ecb : Nat) : Bool :=
  pbr.ipv4.fallbackRouteInput p header idev ucb mcb lcb ecb

/-- Constant `SIMULATION_TIME = 15.0` from `qos-implementation.cc`. -/
def SIMULATION_TIME : ℚ := 15

/-- One FlowMonitor record as read by `CheckMetrics`: the source port from
the flow's five-tuple (the class hint), `txPackets`, `rxPackets`,
`delaySum.GetSeconds()` and `jitterSum.GetSeconds()`. -/
structure FlowRecord where
  sourcePort : Nat
  txPackets : ℚ
  rxPackets : ℚ
  delaySum : ℚ
  jitterSum : ℚ
deriving DecidableEq

/-- The seven accumulator variables of `CheckMetrics` (there is no FTP
jitter accumulator in the source). -/
structure Totals where
  totalTxVoIP : ℚ
  totalRxVoIP : ℚ
  totalDelayVoIP : ℚ
  totalJitterVoIP : ℚ
  totalTxFTP : ℚ
  totalRxFTP : ℚ
  totalDelayFTP : ℚ
deriving DecidableEq

/-- All seven accumulators start at zero. -/
def initTotals : Totals := ⟨0, 0, 0, 0, 0, 0, 0⟩

/-- The body of the aggregation loop of `CheckMetrics`: source port 9 adds
the record's counters (including jitter) to the VoIP totals, source port 10
adds `txPackets`, `rxPackets` and `delaySum` (not jitter) to the FTP
totals, and any other port leaves every accumulator unchanged. -/
def accumRecord (t : Totals) (r : FlowRecord) : Totals :=
  if r.sourcePort = 9 then
    { t with totalTxVoIP := t.totalTxVoIP + r.txPackets,
             totalRxVoIP := t.totalRxVoIP + r.rxPackets,
             totalDelayVoIP := t.totalDelayVoIP + r.delaySum,
             totalJitterVoIP := t.totalJitterVoIP + r.jitterSum }
  else if r.sourcePort = 10 then
    { t with totalTxFTP := t.totalTxFTP + r.txPackets,
             totalRxFTP := t.totalRxFTP + r.rxPackets,
             totalDelayFTP := t.totalDelayFTP + r.delaySum }
  else t

/-- The aggregation loop of `CheckMetrics` over the flow-stats map,
modelled as a left fold over the record list. -/
def computeTotals (recs : List FlowRecord) : Totals :=
  recs.foldl accumRecord initTotals

/-- One class's reported metrics.  The VoIP block prints loss, latency and
jitter; the FTP block prints loss, latency and throughput; the two metrics
that a block never prints are `none` here. -/
structure ClassSummary where
  lossPercent : ℚ
  avgDelayMs : ℚ
  avgJitterMs : Option ℚ
  throughputMbps : Option ℚ
deriving DecidableEq

/-- The fixed packet size (bytes) in the FTP throughput formula: the source
writes the literal `1500.0`. -/
def assumedPacketSizeBytes : ℚ := 1500

/-- The throughput observation window: the source writes
`SIMULATION_TIME - 3.0` (= 12 seconds). -/
def observationWindowSeconds : ℚ := SIMULATION_TIME - 3

/-- The VoIP reporting block of `CheckMetrics`: emitted only when
`totalRxVoIP > 0`, with `lossVoIP = (totalTxVoIP - totalRxVoIP) /
totalTxVoIP * 100.0`, `avgDelayVoIP = totalDelayVoIP / totalRxVoIP *
1000.0` and `avgJitterVoIP = totalJitterVoIP / totalRxVoIP * 1000.0`; no
throughput line. -/
def voipSummary (t : Totals) : Option ClassSummary :=
  if 0 < t.totalRxVoIP then
    some { lossPercent := (t.totalTxVoIP - t.totalRxVoIP) / t.totalTxVoIP * 100,
           avgDelayMs := t.totalDelayVoIP / t.totalRxVoIP * 1000,
           avgJitterMs := some (t.totalJitterVoIP / t.totalRxVoIP * 1000),
           throughputMbps := none }
  else none

/-- The FTP reporting block of `CheckMetrics`: emitted only when
`totalRxFTP > 0`, with `lossFTP = (totalTxFTP - totalRxFTP) / totalTxFTP *
100.0`, `throughputFTP = (totalRxFTP * 1500.0 * 8.0) / ((SIMULATION_TIME -
3.0) * 1000000.0)` and `avgDelayFTP = totalDelayFTP / totalRxFTP * 1000.0`;
no jitter line. -/
def ftpSummary (t : Totals) : Option ClassSummary :=
  if 0 < t.totalRxFTP then
    some { lossPercent := (t.totalTxFTP - t.totalRxFTP) / t.totalTxFTP * 100,
           avgDelayMs := t.totalDelayFTP / t.totalRxFTP * 1000,
           avgJitterMs := none,
           throughputMbps := some (t.totalRxFTP * assumedPacketSizeBytes * 8 /
             (observationWindowSeconds * 1000000)) }
  else none

/-- Embedding of `CheckMetrics`: aggregate the records and report the two
per-class summaries (VoIP first, FTP second); a class with a non-positive
received total produces no block. -/
def CheckMetrics (recs : List FlowRecord) : Option ClassSummary × Option ClassSummary :=
  (voipSummary (computeTotals recs), ftpSummary (computeTotals recs))

/-- Scrubbing the jitter counter of every FTP-classified (source port 10)
record; used to state that `CheckMetrics` never reads FTP jitter. -/
def scrubFtpJitter (r : FlowRecord) : FlowRecord :=
  if r.sourcePort = 10 then { r with jitterSum := 0 } else r

/-- A record whose port matches neither class leaves the accumulators
untouched. -/
theorem accumRecord_unmatched {r : FlowRecord} (h9 : r.sourcePort ≠ 9)
    (h10 : r.sourcePort ≠ 10) (t : Totals) : accumRecord t r = t := by
  simp [accumRecord, h9, h10]

/-- The loop body never reads the jitter counter of a port-10 record. -/
theorem accumRecord_scrub (t : Totals) (r : FlowRecord) :
    accumRecord t (scrubFtpJitter r) = accumRecord t r := by
  by_cases h : r.sourcePort = 10
  · simp [scrubFtpJitter, accumRecord, h]
  · simp [scrubFtpJitter, h]

/-- Folding the loop body over jitter-scrubbed records gives the same
accumulators. -/
theorem foldl_accumRecord_scrub (recs : List FlowRecord) :
    ∀ t : Totals, (recs.map scrubFtpJitter).foldl accumRecord t = recs.foldl accumRecord t := by
  induction recs with
  | nil => intro t; rfl
  | cons r rs ih =>
      intro t
      simp only [List.map_cons, List.foldl_cons, accumRecord_scrub, ih]

/-- A concrete `Ipv4` model used by the witnesses: interface `i` has local
address `100 + i` and device `200 + i`; the fallback output routing always
answers "no route" with `sockerr` set to 7, and the fallback input routing
always answers `true`. -/
def ipv4Ex : Ipv4Model :=
  { localAddress := fun i => 100 + i,
    netDevice := fun i => 200 + i,
    fallbackRouteOutput := fun _ _ _ _ => (none, 7),
    fallbackRouteInput := fun _ _ _ _ _ _ _ => true }

/-- A concrete `PbrRouting` configuration used by the witnesses, mirroring
the main script: video next hop 22 on interface 2, data next hop 33 on
interface 3. -/
def pbrEx : PbrRouting :=
  { videoNextHop := 22, dataNextHop := 33,
    videoIfIndex := 2, dataIfIndex := 3, ipv4 := ipv4Ex }

/-- C1: `RouteOutput` classifies by the header's DSCP marking alone: marking
0x2e returns the route built from the video-path configuration (gateway =
`m_videoNextHop`, output device and source taken from `m_videoIfIndex`) with
the header's destination; marking 0x00 returns the route built from the
data-path configuration; any other marking takes neither policy branch and
falls through to the delegation; and on a policy match the route's source,
gateway and output device do not depend on the destination address. -/
theorem C1_routeOutput_policy_classification (pbr : PbrRouting) (p : Packet)
    (header : Ipv4Header) (oif : NetDevice) (sockerr : SocketErrno) :
    (header.dscp = DSCP_VIDEO_EF →
      pbr.RouteOutput p header oif sockerr =
        (some { destination := header.destination,
                source := pbr.ipv4.localAddress pbr.videoIfIndex,
                gateway := pbr.videoNextHop,
                outputDevice := pbr.ipv4.netDevice pbr.videoIfIndex }, sockerr)) ∧
    (header.dscp = DSCP_DATA_BE →
      pbr.RouteOutput p header oif sockerr =
        (some { destination := header.destination,
                source := pbr.ipv4.localAddress pbr.dataIfIndex,
                gateway := pbr.dataNextHop,
                outputDevice := pbr.ipv4.netDevice pbr.dataIfIndex }, sockerr)) ∧
    (header.dscp ≠ DSCP_VIDEO_EF → header.dscp ≠ DSCP_DATA_BE →
      pbr.RouteOutput p header oif sockerr =
        pbr.ipv4.fallbackRouteOutput p header oif sockerr) ∧
    (header.dscp = DSCP_VIDEO_EF ∨ header.dscp = DSCP_DATA_BE →
      ∀ d : Ipv4Address,
        (pbr.RouteOutput p { header with destination := d } oif sockerr).1.map
            (fun r => (r.source, r.gateway, r.outputDevice)) =
          (pbr.RouteOutput p header oif sockerr).1.map
            (fun r => (r.source, r.gateway, r.outputDevice))) := by
  refine ⟨?_, ?_, ?_, ?_⟩
  · intro h
    simp [PbrRouting.RouteOutput, h]
  · intro h
    simp [PbrRouting.RouteOutput, h, DSCP_VIDEO_EF, DSCP_DATA_BE]
  · intro h1 h2
    simp [PbrRouting.RouteOutput, h1, h2]
  · rintro (h | h) d <;>
      simp [PbrRouting.RouteOutput, h, DSCP_VIDEO_EF, DSCP_DATA_BE]

/-- Witness for C1 at the configuration of the main script: an EF-marked
header to destination 55 goes out via gateway 22 / device 202, a BE-marked
one via gateway 33 / device 203, and a header marked 5 reaches the
fallback, which answers (no route, `sockerr` 7). -/
theorem C1_witness :
    pbrEx.RouteOutput 0 ⟨0x2e, 55⟩ 0 0 = (some ⟨55, 102, 22, 202⟩, 0) ∧
    pbrEx.RouteOutput 0 ⟨0x00, 55⟩ 0 0 = (some ⟨55, 103, 33, 203⟩, 0) ∧
    pbrEx.RouteOutput 0 ⟨5, 55⟩ 0 0 = (none, 7) := by
  refine ⟨?_, ?_, ?_⟩
  · rw [(C1_routeOutput_policy_classification pbrEx 0 ⟨0x2e, 55⟩ 0 0).1 rfl]; rfl
  · rw [(C1_routeOutput_policy_classification pbrEx 0 ⟨0x00, 55⟩ 0 0).2.1 rfl]; rfl
  · rw [(C1_routeOutput_policy_classification pbrEx 0 ⟨5, 55⟩ 0 0).2.2.1
      (by decide) (by decide)]; rfl

/-- C2, counterexample: a record set whose VoIP flow has transmitted = 0 and
received = 5 has a zero transmitted total, yet the VoIP class is NOT omitted
from the output — the guard in the source tests the received total only, so
the loss expression is evaluated with its zero transmitted divisor. -/
theorem C2_counterexample :
    (computeTotals [⟨9, 0, 5, 0, 0⟩]).totalTxVoIP = 0 ∧
    (CheckMetrics [⟨9, 0, 5, 0, 0⟩]).1 ≠ none := by
  constructor
  · norm_num [computeTotals, accumRecord, initTotals]
  · have h : (CheckMetrics [⟨9, 0, 5, 0, 0⟩]).1 = some ⟨0, 0, some 0, none⟩ := by
      norm_num [CheckMetrics, computeTotals, accumRecord, initTotals, voipSummary]
    rw [h]
    exact Option.some_ne_none _

/-- C2, amended: a class is included in the aggregation output exactly when
its received-packet total is positive; the transmitted total is never
tested, so an input with received > 0 and transmitted = 0 is reported and
its loss expression is evaluated with the zero transmitted divisor. -/
theorem C2_omission_guard_on_received (recs : List FlowRecord) :
    ((CheckMetrics recs).1 ≠ none ↔ 0 < (computeTotals recs).totalRxVoIP) ∧
    ((CheckMetrics recs).2 ≠ none ↔ 0 < (computeTotals recs).totalRxFTP) := by
  constructor <;>
  · simp only [CheckMetrics, voipSummary, ftpSummary]
    split <;> simp_all

/-- Witness for C2 on the counterexample input: the VoIP block (received
total 5 > 0) is present even though its transmitted total is 0, and the FTP
block (received total 0) is absent. -/
theorem C2_witness :
    (CheckMetrics [⟨9, 0, 5, 0, 0⟩]).1 ≠ none ∧
    (CheckMetrics [⟨9, 0, 5, 0, 0⟩]).2 = none := by
  constructor
  · exact (C2_omission_guard_on_received [⟨9, 0, 5, 0, 0⟩]).1.mpr
      (by norm_num [computeTotals, accumRecord, initTotals])
  · by_contra h
    have := (C2_omission_guard_on_received [⟨9, 0, 5, 0, 0⟩]).2.mp h
    norm_num [computeTotals, accumRecord, initTotals] at this

/-- C3, counterexample: with transmitted = 50 and received = 60 the reported
VoIP loss percentage is -20, a strictly negative value, not the claimed
clamped 0. -/
theorem C3_counterexample :
    (CheckMetrics [⟨9, 50, 60, 0, 0⟩]).1.map ClassSummary.lossPercent = some (-20) ∧
    (-20 : ℚ) < 0 := by
  constructor
  · norm_num [CheckMetrics, computeTotals, accumRecord, initTotals, voipSummary]
  · norm_num

/-- C3, amended: the aggregation never faults (it is a total function), but
it does not clamp: whenever a class's transmitted total is positive and its
received total exceeds it, the class is reported with the raw loss value
(transmitted - received) / transmitted * 100, which is strictly negative. -/
theorem C3_negative_loss_unclamped (recs : List FlowRecord) :
    (0 < (computeTotals recs).totalTxVoIP →
      (computeTotals recs).totalTxVoIP < (computeTotals recs).totalRxVoIP →
      (CheckMetrics recs).1.map ClassSummary.lossPercent =
        some (((computeTotals recs).totalTxVoIP - (computeTotals recs).totalRxVoIP) /
          (computeTotals recs).totalTxVoIP * 100) ∧
      ∀ q : ℚ, (CheckMetrics recs).1.map ClassSummary.lossPercent = some q → q < 0) ∧
    (0 < (computeTotals recs).totalTxFTP →
      (computeTotals recs).totalTxFTP < (computeTotals recs).totalRxFTP →
      (CheckMetrics recs).2.map ClassSummary.lossPercent =
        some (((computeTotals recs).totalTxFTP - (computeTotals recs).totalRxFTP) /
          (computeTotals recs).totalTxFTP * 100) ∧
      ∀ q : ℚ, (CheckMetrics recs).2.map ClassSummary.lossPercent = some q → q < 0) := by
  constructor
  · intro htx hlt
    have hrx : 0 < (computeTotals recs).totalRxVoIP := htx.trans hlt
    have hval : (CheckMetrics recs).1.map ClassSummary.lossPercent =
        some (((computeTotals recs).totalTxVoIP - (computeTotals recs).totalRxVoIP) /
          (computeTotals recs).totalTxVoIP * 100) := by
      simp [CheckMetrics, voipSummary, hrx]
    refine ⟨hval, fun q hq => ?_⟩
    rw [hval] at hq
    obtain rfl : _ = q := Option.some.inj hq
    exact mul_neg_of_neg_of_pos
      (div_neg_of_neg_of_pos (sub_neg.mpr hlt) htx) (by norm_num)
  · intro htx hlt
    have hrx : 0 < (computeTotals recs).totalRxFTP := htx.trans hlt
    have hval : (CheckMetrics recs).2.map ClassSummary.lossPercent =
        some (((computeTotals recs).totalTxFTP - (computeTotals recs).totalRxFTP) /
          (computeTotals recs).totalTxFTP * 100) := by
      simp [CheckMetrics, ftpSummary, hrx]
    refine ⟨hval, fun q hq => ?_⟩
    rw [hval] at hq
    obtain rfl : _ = q := Option.some.inj hq
    exact mul_neg_of_neg_of_pos
      (div_neg_of_neg_of_pos (sub_neg.mpr hlt) htx) (by norm_num)

/-- Record set used by the C3 witness: both classes show the reordering
artifact transmitted = 50 < received = 60. -/
def recsC3 : List FlowRecord := [⟨9, 50, 60, 1, 1⟩, ⟨10, 50, 60, 1, 0⟩]

/-- Witness for C3: on `recsC3` both classes report loss -20, obtained from
the amended theorem with its hypotheses discharged concretely. -/
theorem C3_witness :
    (CheckMetrics recsC3).1.map ClassSummary.lossPercent = some (-20) ∧
    (CheckMetrics recsC3).2.map ClassSummary.lossPercent = some (-20) := by
  have h1 := ((C3_negative_loss_unclamped recsC3).1
    (by norm_num [recsC3, computeTotals, accumRecord, initTotals])
    (by norm_num [recsC3, computeTotals, accumRecord, initTotals])).1
  have h2 := ((C3_negative_loss_unclamped recsC3).2
    (by norm_num [recsC3, computeTotals, accumRecord, initTotals])
    (by norm_num [recsC3, computeTotals, accumRecord, initTotals])).1
  rw [h1, h2]
  constructor <;> norm_num [recsC3, computeTotals, accumRecord, initTotals]

/-- C4: a class whose received-packet total is zero is omitted entirely from
the aggregation output — in particular the boundary input with transmitted =
0 and received = 0 produces no block and no division is reached. -/
theorem C4_zero_received_class_omitted (recs : List FlowRecord) :
    ((computeTotals recs).totalRxVoIP = 0 → (CheckMetrics recs).1 = none) ∧
    ((computeTotals recs).totalRxFTP = 0 → (CheckMetrics recs).2 = none) := by
  constructor
  · intro h
    simp [CheckMetrics, voipSummary, h]
  · intro h
    simp [CheckMetrics, ftpSummary, h]

/-- Record set used by the C4 witness: the boundary input transmitted = 0,
received = 0 for both classes. -/
def recsC4 : List FlowRecord := [⟨9, 0, 0, 0, 0⟩, ⟨10, 0, 0, 0, 0⟩]

/-- Witness for C4 at the boundary input {transmitted = 0, received = 0}:
both classes are omitted and no division fault occurs. -/
theorem C4_witness : CheckMetrics recsC4 = (none, none) := by
  have h := C4_zero_received_class_omitted recsC4
  have h1 := h.1 (by norm_num [recsC4, computeTotals, accumRecord, initTotals])
  have h2 := h.2 (by norm_num [recsC4, computeTotals, accumRecord, initTotals])
  exact Prod.ext h1 h2

/-- C5: for a packet whose marking matches neither configured class,
`RouteOutput` returns exactly what the underlying routing protocol's
output-routing decision returns for the original packet, header,
output-interface hint and `sockerr` — both the route and the final
`sockerr` value, for every possible fallback behaviour. -/
theorem C5_unmatched_delegates_verbatim (pbr : PbrRouting) (p : Packet)
    (header : Ipv4Header) (oif : NetDevice) (sockerr : SocketErrno)
    (hEF : header.dscp ≠ DSCP_VIDEO_EF) (hBE : header.dscp ≠ DSCP_DATA_BE) :
    pbr.RouteOutput p header oif sockerr =
      pbr.ipv4.fallbackRouteOutput p header oif sockerr := by
  simp [PbrRouting.RouteOutput, hEF, hBE]

/-- Witness for C5: under the concrete model, whose fallback always answers
(no route, `sockerr` 7), a packet marked 5 gets exactly that answer. -/
theorem C5_witness : pbrEx.RouteOutput 1 ⟨5, 55⟩ 2 3 = (none, 7) := by
  rw [C5_unmatched_delegates_verbatim pbrEx 1 ⟨5, 55⟩ 2 3 (by decide) (by decide)]
  rfl

/-- C6: every reported class obeys the stated formulas: average delay is
cumulative delay / received * 1000; VoIP additionally reports average
jitter = cumulative jitter / received * 1000; FTP additionally reports
throughput = received * assumedPacketSizeBytes * 8 /
(observationWindowSeconds * 1000000), with assumedPacketSizeBytes = 1500. -/
theorem C6_derived_metric_formulas (recs : List FlowRecord) :
    assumedPacketSizeBytes = 1500 ∧
    (∀ s : ClassSummary, (CheckMetrics recs).1 = some s →
      s.avgDelayMs =
        (computeTotals recs).totalDelayVoIP / (computeTotals recs).totalRxVoIP * 1000 ∧
      s.avgJitterMs =
        some ((computeTotals recs).totalJitterVoIP / (computeTotals recs).totalRxVoIP * 1000)) ∧
    (∀ s : ClassSummary, (CheckMetrics recs).2 = some s →
      s.avgDelayMs =
        (computeTotals recs).totalDelayFTP / (computeTotals recs).totalRxFTP * 1000 ∧
      s.throughputMbps =
        some ((computeTotals recs).totalRxFTP * assumedPacketSizeBytes * 8 /
          (observationWindowSeconds * 1000000))) := by
  refine ⟨rfl, ?_, ?_⟩
  · intro s hs
    simp only [CheckMetrics, voipSummary] at hs
    split at hs
    · obtain rfl := Option.some.inj hs
      exact ⟨rfl, rfl⟩
    · exact Option.noConfusion hs
  · intro s hs
    simp only [CheckMetrics, ftpSummary] at hs
    split at hs
    · obtain rfl := Option.some.inj hs
      exact ⟨rfl, rfl⟩
    · exact Option.noConfusion hs

/-- Record set used by the C6 witness: a VoIP flow with received total 100,
cumulative delay 2 s and jitter 1 s, and an FTP flow with received total
50 and cumulative delay 3 s. -/
def recsC6 : List FlowRecord := [⟨9, 100, 100, 2, 1⟩, ⟨10, 100, 50, 3, 0⟩]

/-- Witness for C6 on `recsC6`: the VoIP block reports average delay 20 ms
and jitter 10 ms, the FTP block average delay 60 ms and throughput
50 * 1500 * 8 / 12000000 = 0.05 Mbps, as the formulas dictate. -/
theorem C6_witness :
    ((⟨0, 20, some 10, none⟩ : ClassSummary).avgDelayMs =
        (computeTotals recsC6).totalDelayVoIP / (computeTotals recsC6).totalRxVoIP * 1000 ∧
      (⟨0, 20, some 10, none⟩ : ClassSummary).avgJitterMs =
        some ((computeTotals recsC6).totalJitterVoIP /
          (computeTotals recsC6).totalRxVoIP * 1000)) ∧
    ((⟨50, 60, none, some (1/20)⟩ : ClassSummary).avgDelayMs =
        (computeTotals recsC6).totalDelayFTP / (computeTotals recsC6).totalRxFTP * 1000 ∧
      (⟨50, 60, none, some (1/20)⟩ : ClassSummary).throughputMbps =
        some ((computeTotals recsC6).totalRxFTP * assumedPacketSizeBytes * 8 /
          (observationWindowSeconds * 1000000))) := by
  constructor
  · exact (C6_derived_metric_formulas recsC6).2.1 ⟨0, 20, some 10, none⟩
      (by norm_num [recsC6, CheckMetrics, computeTotals, accumRecord, initTotals, voipSummary])
  · exact (C6_derived_metric_formulas recsC6).2.2 ⟨50, 60, none, some (1/20)⟩
      (by norm_num [recsC6, CheckMetrics, computeTotals, accumRecord, initTotals, ftpSummary,
        assumedPacketSizeBytes, observationWindowSeconds, SIMULATION_TIME])

/-- C7: a record whose source port matches neither measurement class (9 =
VoIP, 10 = FTP) contributes nothing: dropping it from the record list
changes neither any accumulated total nor the reported summaries. -/
theorem C7_unmatched_port_contributes_nothing (xs ys : List FlowRecord)
    (r : FlowRecord) (h9 : r.sourcePort ≠ 9) (h10 : r.sourcePort ≠ 10) :
    computeTotals (xs ++ r :: ys) = computeTotals (xs ++ ys) ∧
    CheckMetrics (xs ++ r :: ys) = CheckMetrics (xs ++ ys) := by
  have htot : computeTotals (xs ++ r :: ys) = computeTotals (xs ++ ys) := by
    simp [computeTotals, List.foldl_append, accumRecord_unmatched h9 h10]
  exact ⟨htot, by simp [CheckMetrics, htot]⟩

/-- Witness for C7: a background record on port 7 inserted between a VoIP
and an FTP record changes neither the totals nor the report. -/
theorem C7_witness :
    computeTotals ([⟨9, 1, 1, 0, 0⟩] ++ ⟨7, 5, 5, 5, 5⟩ :: [⟨10, 2, 2, 0, 0⟩]) =
      computeTotals ([⟨9, 1, 1, 0, 0⟩] ++ [⟨10, 2, 2, 0, 0⟩]) ∧
    CheckMetrics ([⟨9, 1, 1, 0, 0⟩] ++ ⟨7, 5, 5, 5, 5⟩ :: [⟨10, 2, 2, 0, 0⟩]) =
      CheckMetrics ([⟨9, 1, 1, 0, 0⟩] ++ [⟨10, 2, 2, 0, 0⟩]) :=
  C7_unmatched_port_contributes_nothing [⟨9, 1, 1, 0, 0⟩] [⟨10, 2, 2, 0, 0⟩]
    ⟨7, 5, 5, 5, 5⟩ (by decide) (by decide)

/-- C8: `RouteInput` makes no decision of its own — for every combination
of arguments it returns exactly the underlying routing protocol's
input-routing result on those same arguments (packet, header, input device
and the four callbacks, all unchanged). -/
theorem C8_routeInput_unconditional_delegation (pbr : PbrRouting) (p : Packet)
    (header : Ipv4Header) (idev : NetDevice) (ucb mcb lcb ecb : Nat) :
    pbr.RouteInput p header idev ucb mcb lcb ecb =
      pbr.ipv4.fallbackRouteInput p header idev ucb mcb lcb ecb := rfl

/-- C9: on a policy match (marking 0x2e or 0x00) the routing decision is a
frame: the returned route does not depend on the packet, the
output-interface hint or the incoming `sockerr` value, and the `sockerr`
out-parameter is returned exactly as it came in (it can change only on the
delegation path). -/
theorem C9_policy_branch_frame (pbr : PbrRouting) (header : Ipv4Header)
    (p p' : Packet) (oif oif' : NetDevice) (sockerr sockerr' : SocketErrno)
    (h : header.dscp = DSCP_VIDEO_EF ∨ header.dscp = DSCP_DATA_BE) :
    (pbr.RouteOutput p header oif sockerr).1 =
      (pbr.RouteOutput p' header oif' sockerr').1 ∧
    (pbr.RouteOutput p header oif sockerr).2 = sockerr := by
  rcases h with h | h <;>
    simp [PbrRouting.RouteOutput, h, DSCP_VIDEO_EF, DSCP_DATA_BE]

/-- Witness for C9: with an EF-marked header, two calls differing in
packet, hint and incoming `sockerr` return the same route, and `sockerr`
comes back unchanged. -/
theorem C9_witness :
    (pbrEx.RouteOutput 4 ⟨0x2e, 55⟩ 9 0).1 = (pbrEx.RouteOutput 8 ⟨0x2e, 55⟩ 17 1).1 ∧
    (pbrEx.RouteOutput 4 ⟨0x2e, 55⟩ 9 0).2 = 0 :=
  C9_policy_branch_frame pbrEx ⟨0x2e, 55⟩ 4 8 9 17 0 1 (Or.inl rfl)

/-- C10: the two summaries have fixed, different shapes — a VoIP block
never carries a throughput metric and always carries a jitter metric, an
FTP block never carries a jitter metric and always carries a throughput
metric — and the jitter counters of FTP-classified records are never read:
scrubbing them all to zero leaves the whole report unchanged. -/
theorem C10_fixed_summary_shapes (recs : List FlowRecord) :
    (∀ s : ClassSummary, (CheckMetrics recs).1 = some s →
      s.throughputMbps = none ∧ s.avgJitterMs ≠ none) ∧
    (∀ s : ClassSummary, (CheckMetrics recs).2 = some s →
      s.avgJitterMs = none ∧ s.throughputMbps ≠ none) ∧
    CheckMetrics (recs.map scrubFtpJitter) = CheckMetrics recs := by
  refine ⟨?_, ?_, ?_⟩
  · intro s hs
    simp only [CheckMetrics, voipSummary] at hs
    split at hs
    · obtain rfl := Option.some.inj hs
      exact ⟨rfl, Option.some_ne_none _⟩
    · exact Option.noConfusion hs
  · intro s hs
    simp only [CheckMetrics, ftpSummary] at hs
    split at hs
    · obtain rfl := Option.some.inj hs
      exact ⟨rfl, Option.some_ne_none _⟩
    · exact Option.noConfusion hs
  · simp [CheckMetrics, computeTotals, foldl_accumRecord_scrub]

/-- Record set used by the C10 witness: one flow per class, with a nonzero
jitter counter on the FTP record. -/
def recsC10 : List FlowRecord := [⟨9, 10, 10, 1, 1⟩, ⟨10, 10, 10, 1, 5⟩]

/-- Witness for C10 on `recsC10`: the VoIP block carries no throughput and
does carry jitter, and scrubbing the FTP record's jitter counter (5 → 0)
leaves the whole report unchanged. -/
theorem C10_witness :
    ((⟨0, 100, some 100, none⟩ : ClassSummary).throughputMbps = none ∧
      (⟨0, 100, some 100, none⟩ : ClassSummary).avgJitterMs ≠ none) ∧
    CheckMetrics (recsC10.map scrubFtpJitter) = CheckMetrics recsC10 := by
  refine ⟨(C10_fixed_summary_shapes recsC10).1 ⟨0, 100, some 100, none⟩ ?_,
    (C10_fixed_summary_shapes recsC10).2.2⟩
  norm_num [recsC10, CheckMetrics, computeTotals, accumRecord, initTotals, voipSummary]
